import Mathlib

/-!
Verification development for the extrasafe repository.

The pure parts of the code (the acknowledgment wrapper, the set-backed
builtin rule sets, the error taxonomy) are embedded directly from the
source files.  The policy aggregator, the path-rights layer and the
application protocol are not shipped in the sources available here, so
those operations are modelled from the specification and each such
definition says so in its doc comment.
-/

namespace Extrasafe

/-- Syscall identifiers, embedded from the syscalls crate as their
x86-64 numeric codes; the source type syscalls::Sysno derives equality
and ordering on these numbers. -/
abbrev Sysno := Nat

/-- Numeric code of the adjtimex syscall. -/
def Sysno.adjtimex : Sysno := 159

/-- Numeric code of the clock_adjtime syscall. -/
def Sysno.clock_adjtime : Sysno := 305

/-- Numeric code of the clock_settime syscall. -/
def Sysno.clock_settime : Sysno := 227

/-- Numeric code of the settimeofday syscall. -/
def Sysno.settimeofday : Sysno := 164

/-- Numeric code of the clock_getres syscall. -/
def Sysno.clock_getres : Sysno := 229

/-- Numeric code of the clock_gettime syscall. -/
def Sysno.clock_gettime : Sysno := 228

/-- Numeric code of the gettimeofday syscall. -/
def Sysno.gettimeofday : Sysno := 96

/-- Numeric code of the time syscall. -/
def Sysno.time : Sysno := 201

/-- Numeric code of the clock_nanosleep syscall. -/
def Sysno.clock_nanosleep : Sysno := 230

/-- Numeric code of the nanosleep syscall. -/
def Sysno.nanosleep : Sysno := 35

/-- Numeric code of the setfsuid syscall. -/
def Sysno.setfsuid : Sysno := 122

/-- Numeric code of the setresuid syscall. -/
def Sysno.setresuid : Sysno := 117

/-- Numeric code of the setreuid syscall. -/
def Sysno.setreuid : Sysno := 113

/-- Numeric code of the setuid syscall. -/
def Sysno.setuid : Sysno := 105

/-- Numeric code of the geteuid syscall. -/
def Sysno.geteuid : Sysno := 107

/-- Numeric code of the getresuid syscall. -/
def Sysno.getresuid : Sysno := 118

/-- Numeric code of the getuid syscall. -/
def Sysno.getuid : Sysno := 102

/-- Embedded from src/extrasafe/src/yes_really.rs: a struct whose only
content is the wrapped value, forcing the caller to confirm before use. -/
@[ext]
structure YesReally (T : Type u) where
  inner : T
deriving DecidableEq

/-- Embedded from yes_really.rs: confirm you really wanted to call the
function and return its result. -/
def YesReally.yes_really (y : YesReally T) : T :=
  y.inner

/-- Embedded from yes_really.rs: make a YesReally. -/
def YesReally.new (inner : T) : YesReally T :=
  ⟨inner⟩

/-- Embedded from src/src/builtins/time.rs: the Time rule set holds a
BTreeSet of permitted syscalls, modelled as a finite set of codes. -/
@[ext]
structure Time where
  syscalls : Finset Sysno
deriving DecidableEq

/-- Embedded from time.rs: the derived Default, an empty syscall set. -/
def Time.default : Time :=
  ⟨∅⟩

/-- Embedded from time.rs (allow! expansion): allow the adjtimex syscall. -/
def Time.allow_adjtimex (t : Time) : YesReally Time :=
  YesReally.new ⟨insert Sysno.adjtimex t.syscalls⟩

/-- Embedded from time.rs (allow! expansion): allow the clock_adjtime syscall. -/
def Time.allow_clock_adjtime (t : Time) : YesReally Time :=
  YesReally.new ⟨insert Sysno.clock_adjtime t.syscalls⟩

/-- Embedded from time.rs (allow! expansion): allow the clock_settime syscall. -/
def Time.allow_clock_settime (t : Time) : YesReally Time :=
  YesReally.new ⟨insert Sysno.clock_settime t.syscalls⟩

/-- Embedded from time.rs (allow! expansion): allow the settimeofday syscall. -/
def Time.allow_settimeofday (t : Time) : YesReally Time :=
  YesReally.new ⟨insert Sysno.settimeofday t.syscalls⟩

/-- Embedded from time.rs (allow! expansion): allow modifying time,
chaining the four dangerous leaf methods through yes_really. -/
def Time.allow_modify (t : Time) : YesReally Time :=
  YesReally.new
    ((((t.allow_adjtimex.yes_really).allow_clock_adjtime.yes_really).allow_clock_settime.yes_really).allow_settimeofday.yes_really)

/-- Embedded from time.rs (allow! expansion): allow the clock_getres syscall. -/
def Time.allow_clock_getres (t : Time) : Time :=
  ⟨insert Sysno.clock_getres t.syscalls⟩

/-- Embedded from time.rs (allow! expansion): allow the clock_gettime syscall. -/
def Time.allow_clock_gettime (t : Time) : Time :=
  ⟨insert Sysno.clock_gettime t.syscalls⟩

/-- Embedded from time.rs (allow! expansion): allow clock_getres and clock_gettime. -/
def Time.allow_gettime (t : Time) : Time :=
  (t.allow_clock_getres).allow_clock_gettime

/-- Embedded from time.rs (allow! expansion): allow the gettimeofday syscall. -/
def Time.allow_gettimeofday (t : Time) : Time :=
  ⟨insert Sysno.gettimeofday t.syscalls⟩

/-- Embedded from time.rs (allow! expansion): allow the time syscall. -/
def Time.allow_time (t : Time) : Time :=
  ⟨insert Sysno.time t.syscalls⟩

/-- Embedded from time.rs (allow! expansion): allow querying time. -/
def Time.allow_query (t : Time) : Time :=
  ((t.allow_gettime).allow_gettimeofday).allow_time

/-- Embedded from time.rs (allow! expansion): allow the clock_nanosleep syscall. -/
def Time.allow_clock_nanosleep (t : Time) : Time :=
  ⟨insert Sysno.clock_nanosleep t.syscalls⟩

/-- Embedded from time.rs (allow! expansion): allow the nanosleep syscall. -/
def Time.allow_nanosleep (t : Time) : Time :=
  ⟨insert Sysno.nanosleep t.syscalls⟩

/-- Embedded from time.rs (allow! expansion): allow sleeping. -/
def Time.allow_sleep (t : Time) : Time :=
  (t.allow_clock_nanosleep).allow_nanosleep

/-- Embedded from time.rs (allow! expansion): allow querying time and sleeping. -/
def Time.allow_query_and_sleep (t : Time) : Time :=
  (t.allow_query).allow_sleep

/-- Embedded from time.rs (allow! expansion): allow querying and
modifying time as well as sleeping. -/
def Time.allow_everything (t : Time) : YesReally Time :=
  YesReally.new ((t.allow_modify.yes_really).allow_query_and_sleep)

/-- Embedded from time.rs: Time::everything constructor. -/
def Time.everything : YesReally Time :=
  Time.default.allow_everything

/-- Embedded from time.rs: Time::modify constructor. -/
def Time.modify : YesReally Time :=
  Time.default.allow_modify

/-- Embedded from time.rs: Time::nothing constructor, which allows nothing. -/
def Time.nothing : Time :=
  Time.default

/-- Embedded from time.rs: Time::query constructor. -/
def Time.query : Time :=
  Time.default.allow_query

/-- Embedded from time.rs: Time::query_and_modify constructor. -/
def Time.query_and_modify : YesReally Time :=
  (Time.default.allow_query).allow_modify

/-- Embedded from time.rs: Time::query_and_sleep constructor. -/
def Time.query_and_sleep : Time :=
  Time.default.allow_query_and_sleep

/-- Embedded from time.rs: Time::sleep constructor. -/
def Time.sleep : Time :=
  Time.default.allow_sleep

/-- Embedded from time.rs: simple_rules iterates the BTreeSet in
ascending order into a vector. -/
def Time.simple_rules (t : Time) : List Sysno :=
  t.syscalls.sort (· ≤ ·)

/-- Embedded from time.rs: the display name of the Time rule set. -/
def Time.name : String :=
  "Time"

/-- Embedded from src/src/builtins/user_id.rs: the UserId rule set holds
a BTreeSet of permitted syscalls. -/
@[ext]
structure UserId where
  syscalls : Finset Sysno
deriving DecidableEq

/-- Embedded from user_id.rs: the derived Default, an empty syscall set. -/
def UserId.default : UserId :=
  ⟨∅⟩

/-- Embedded from user_id.rs (allow! expansion): allow the setfsuid syscall. -/
def UserId.allow_setfsuid (u : UserId) : YesReally UserId :=
  YesReally.new ⟨insert Sysno.setfsuid u.syscalls⟩

/-- Embedded from user_id.rs (allow! expansion): allow the setresuid syscall. -/
def UserId.allow_setresuid (u : UserId) : YesReally UserId :=
  YesReally.new ⟨insert Sysno.setresuid u.syscalls⟩

/-- Embedded from user_id.rs (allow! expansion): allow the setreuid syscall. -/
def UserId.allow_setreuid (u : UserId) : YesReally UserId :=
  YesReally.new ⟨insert Sysno.setreuid u.syscalls⟩

/-- Embedded from user_id.rs (allow! expansion): allow the setuid syscall. -/
def UserId.allow_setuid (u : UserId) : YesReally UserId :=
  YesReally.new ⟨insert Sysno.setuid u.syscalls⟩

/-- Embedded from user_id.rs (allow! expansion): allow modifying user IDs. -/
def UserId.allow_set (u : UserId) : YesReally UserId :=
  YesReally.new
    ((((u.allow_setfsuid.yes_really).allow_setresuid.yes_really).allow_setreuid.yes_really).allow_setuid.yes_really)

/-- Embedded from user_id.rs (allow! expansion): allow the geteuid syscall. -/
def UserId.allow_geteuid (u : UserId) : UserId :=
  ⟨insert Sysno.geteuid u.syscalls⟩

/-- Embedded from user_id.rs (allow! expansion): allow the getresuid syscall. -/
def UserId.allow_getresuid (u : UserId) : UserId :=
  ⟨insert Sysno.getresuid u.syscalls⟩

/-- Embedded from user_id.rs (allow! expansion): allow the getuid syscall. -/
def UserId.allow_getuid (u : UserId) : UserId :=
  ⟨insert Sysno.getuid u.syscalls⟩

/-- Embedded from user_id.rs (allow! expansion): allow querying user IDs. -/
def UserId.allow_get (u : UserId) : UserId :=
  ((u.allow_geteuid).allow_getresuid).allow_getuid

/-- Embedded from user_id.rs (allow! expansion): allow modifying and
querying user IDs. -/
def UserId.allow_everything (u : UserId) : YesReally UserId :=
  YesReally.new ((u.allow_set.yes_really).allow_get)

/-- Embedded from user_id.rs: UserId::everything constructor. -/
def UserId.everything : YesReally UserId :=
  UserId.default.allow_everything

/-- Embedded from user_id.rs: UserId::get constructor. -/
def UserId.get : UserId :=
  UserId.default.allow_get

/-- Embedded from user_id.rs: UserId::nothing constructor, which allows nothing. -/
def UserId.nothing : UserId :=
  UserId.default

/-- Embedded from user_id.rs: UserId::set constructor. -/
def UserId.set : YesReally UserId :=
  UserId.default.allow_set

/-- Embedded from user_id.rs: simple_rules iterates the BTreeSet in
ascending order into a vector. -/
def UserId.simple_rules (u : UserId) : List Sysno :=
  u.syscalls.sort (· ≤ ·)

/-- Embedded from user_id.rs: the display name of the UserId rule set. -/
def UserId.name : String :=
  "UserId"

/-- Modelled from the spec: the argument comparator of the condition
model (spec section 3), matching the seccompiler comparator used by the
sources; masked-equals carries its mask. -/
inductive SeccompilerComparator where
  | eq
  | notEq
  | gt
  | ge
  | lt
  | le
  | maskedEq (mask : Nat)
deriving DecidableEq

/-- Modelled from the spec: an argument-level condition, one predicate
over one syscall argument (spec section 3): argument index, comparator
and 64-bit operand. -/
structure SeccompArgumentFilter where
  arg : Nat
  comparator : SeccompilerComparator
  operand : Nat
deriving DecidableEq

/-- Modelled from the spec: a conditional rule, a target syscall plus a
conjunction of argument conditions (spec section 3). -/
structure SeccompRule where
  sysno : Sysno
  conditions : List SeccompArgumentFilter
deriving DecidableEq

/-- Modelled from the spec: evaluation of one argument condition against
the argument vector of a syscall invocation. -/
def SeccompArgumentFilter.matches64 (f : SeccompArgumentFilter) (args : List Nat) : Bool :=
  let v := args.getD f.arg 0
  match f.comparator with
  | .eq => v == f.operand
  | .notEq => v != f.operand
  | .gt => decide (f.operand < v)
  | .ge => decide (f.operand ≤ v)
  | .lt => decide (v < f.operand)
  | .le => decide (v ≤ f.operand)
  | .maskedEq mask => (v &&& mask) == f.operand

/-- Modelled from the spec: a rule admits a call when all of its
argument conditions hold (logical AND, spec section 3). -/
def SeccompRule.matchesArgs (r : SeccompRule) (args : List Nat) : Bool :=
  r.conditions.all (fun f => f.matches64 args)

/-- Modelled from the spec: a list of conditional rules admits a call
when some rule matches (logical OR across rules, spec section 3). -/
def rulesPermit (rules : List SeccompRule) (args : List Nat) : Bool :=
  rules.any (fun r => r.matchesArgs args)

/-- Embedded from src/src/error.rs: the error type of the SafetyContext.
Payloads carried from external libraries are dropped; provider names are
strings and paths are strings. -/
inductive ExtraSafeError where
  | ConditionalNoEffectError (sysno : Sysno) (a b : String)
  | SeccompError
  | NoRulesEnabled
  | DuplicatePath (path : String) (a b : String)
  | PathDoesNotExist
  | LandlockSeccompConflict (a b : String)
  | LandlockNoThreadSync
  | LandlockError
deriving DecidableEq

/-- Modelled from the spec: the capability-provider interface of spec
section 4.1 — a display name, the unconditionally permitted syscalls and
the mapping from syscall to conditional rules; the RuleSet trait
declaration itself is not among the available sources. -/
structure RuleSetData where
  name : String
  simple_rules : List Sysno
  conditional_rules : List (Sysno × List SeccompRule)
deriving DecidableEq

/-- Modelled from the spec: the RuleSet trait has a default
conditional_rules returning an empty map; Time does not override it, as
its in-source tests assert. -/
def Time.conditional_rules (_ : Time) : List (Sysno × List SeccompRule) :=
  []

/-- Modelled from the spec: the RuleSet trait has a default
conditional_rules returning an empty map; UserId does not override it,
as its in-source tests assert. -/
def UserId.conditional_rules (_ : UserId) : List (Sysno × List SeccompRule) :=
  []

/-- Modelled from the spec: the per-syscall state of the policy
aggregator (spec section 3) — Unconditional with its owning provider
name, or Conditional with the owners recorded for diagnostics and the
merged rule list; an absent key is the Unseen state. -/
inductive GrantState where
  | uncond (owner : String)
  | cond (owners : List String) (rules : List SeccompRule)
deriving DecidableEq

/-- Modelled from the spec: the merged grant table, an association list
from syscall to its grant state. -/
abbrev GrantTable := List (Sysno × GrantState)

/-- Modelled from the spec: look a syscall up in the grant table. -/
def lookupGrant : GrantTable → Sysno → Option GrantState
  | [], _ => none
  | (s, g) :: rest, s2 => if s2 = s then some g else lookupGrant rest s2

/-- Modelled from the spec: replace the grant state of a syscall already
present in the table. -/
def updateGrant : GrantTable → Sysno → GrantState → GrantTable
  | [], _, _ => []
  | (s, g) :: rest, s2, g2 =>
    if s2 = s then (s, g2) :: rest else (s, g) :: updateGrant rest s2 g2

/-- Modelled from the spec: a path-rights entry (spec section 3) — path,
set of access rights, owning provider name. -/
structure PathEntry where
  path : String
  rights : Finset Nat
  owner : String
deriving DecidableEq

/-- Modelled from the spec: the policy aggregator (spec section 3) — the
merged grant table, the merged path-rights table, and whether any
provider was ever enabled. -/
structure SafetyContext where
  table : GrantTable
  landlockTable : List PathEntry
  enabledAny : Bool
deriving DecidableEq

/-- Modelled from the spec: a freshly created, empty aggregator. -/
def SafetyContext.new : SafetyContext :=
  ⟨[], [], false⟩

/-- Modelled from the spec (section 4.2): merge one unconditional grant.
Unseen becomes Unconditional; an existing Unconditional is an idempotent
no-op; an existing Conditional is a conflict reporting the syscall, the
conditional owner and the unconditional owner, in the argument order of
ConditionalNoEffectError in src/src/error.rs. -/
def addSimpleGrant (owner : String) (s : Sysno) (t : GrantTable) :
    Except ExtraSafeError GrantTable :=
  match lookupGrant t s with
  | some (.cond owners _) => .error (.ConditionalNoEffectError s (owners.headD "") owner)
  | some (.uncond _) => .ok t
  | none => .ok (t ++ [(s, .uncond owner)])

/-- Modelled from the spec (section 4.2): merge one conditional grant.
Unseen becomes Conditional; an existing Conditional unions the rule
lists and records the new owner; an existing Unconditional is a conflict
symmetric to the unconditional case. -/
def addCondGrant (owner : String) (s : Sysno) (rules : List SeccompRule) (t : GrantTable) :
    Except ExtraSafeError GrantTable :=
  match lookupGrant t s with
  | some (.uncond other) => .error (.ConditionalNoEffectError s owner other)
  | some (.cond owners existing) =>
    .ok (updateGrant t s (.cond (owners ++ [owner]) (existing ++ rules)))
  | none => .ok (t ++ [(s, .cond [owner] rules)])

/-- Modelled from the spec: merge every unconditional grant of a
provider, stopping at the first conflict. -/
def addSimpleGrants (owner : String) : List Sysno → GrantTable → Except ExtraSafeError GrantTable
  | [], t => .ok t
  | s :: rest, t =>
    match addSimpleGrant owner s t with
    | .error e => .error e
    | .ok t2 => addSimpleGrants owner rest t2

/-- Modelled from the spec: merge every conditional grant of a provider,
stopping at the first conflict. -/
def addCondGrants (owner : String) :
    List (Sysno × List SeccompRule) → GrantTable → Except ExtraSafeError GrantTable
  | [], t => .ok t
  | (s, rules) :: rest, t =>
    match addCondGrant owner s rules t with
    | .error e => .error e
    | .ok t2 => addCondGrants owner rest t2

/-- Modelled from the spec (section 4.2): enable a provider — merge its
unconditional set, then its conditional map, into the aggregator; a
conflict is returned as an error and nothing is committed. -/
def SafetyContext.enable (ctx : SafetyContext) (p : RuleSetData) :
    Except ExtraSafeError SafetyContext :=
  match addSimpleGrants p.name p.simple_rules ctx.table with
  | .error e => .error e
  | .ok t1 =>
    match addCondGrants p.name p.conditional_rules t1 with
    | .error e => .error e
    | .ok t2 => .ok ⟨t2, ctx.landlockTable, true⟩

/-- Modelled from the spec: register two providers in order into a fresh
aggregator. -/
def enableTwo (p q : RuleSetData) : Except ExtraSafeError SafetyContext :=
  match SafetyContext.new.enable p with
  | .error e => .error e
  | .ok c => c.enable q

/-- Modelled from the spec: whether the merged policy permits a syscall
invocation — unconditionally granted syscalls always pass, conditionally
granted ones pass when some merged rule matches, unseen ones are denied. -/
def SafetyContext.permits (ctx : SafetyContext) (s : Sysno) (args : List Nat) : Bool :=
  match lookupGrant ctx.table s with
  | some (.uncond _) => true
  | some (.cond _ rules) => rulesPermit rules args
  | none => false

/-- Modelled from the spec: the immutable compiled policy produced by
finalize (spec section 3); the external enforcement compiler is treated
as the identity on the merged table. -/
structure CompiledPolicy where
  table : GrantTable
deriving DecidableEq

/-- Modelled from the spec (section 4.2): finalize fails with
NoRulesEnabled if no provider was ever enabled, otherwise hands the
merged table to the enforcement compiler. -/
def SafetyContext.finalize (ctx : SafetyContext) : Except ExtraSafeError CompiledPolicy :=
  if ctx.enabledAny then .ok ⟨ctx.table⟩ else .error .NoRulesEnabled

/-- Modelled from the spec (section 4.3): a path-rights provider, a
display name plus per-path access-right sets. -/
structure LandlockProviderData where
  name : String
  entries : List (String × Finset Nat)
deriving DecidableEq

/-- Modelled from the spec: look a path up in the path-rights table. -/
def lookupPath : List PathEntry → String → Option PathEntry
  | [], _ => none
  | e :: rest, p => if e.path = p then some e else lookupPath rest p

/-- Modelled from the spec: replace the rights of a path already present
in the path-rights table. -/
def updatePathRights : List PathEntry → String → Finset Nat → List PathEntry
  | [], _, _ => []
  | e :: rest, p, r =>
    if e.path = p then ⟨e.path, r, e.owner⟩ :: rest else e :: updatePathRights rest p r

/-- Modelled from the spec (section 4.3): merge one path-rights entry.
A fresh path is appended; the same provider re-registering a path unions
the rights; a different provider on the same path is a duplicate-path
conflict carrying the path and both provider names. -/
def addPathEntry (owner : String) (p : String) (rights : Finset Nat) (t : List PathEntry) :
    Except ExtraSafeError (List PathEntry) :=
  match lookupPath t p with
  | some e =>
    if e.owner = owner then .ok (updatePathRights t p (e.rights ∪ rights))
    else .error (.DuplicatePath p e.owner owner)
  | none => .ok (t ++ [⟨p, rights, owner⟩])

/-- Modelled from the spec: merge every entry of a path-rights provider,
stopping at the first conflict. -/
def addPathEntries (owner : String) :
    List (String × Finset Nat) → List PathEntry → Except ExtraSafeError (List PathEntry)
  | [], t => .ok t
  | (p, r) :: rest, t =>
    match addPathEntry owner p r t with
    | .error e => .error e
    | .ok t2 => addPathEntries owner rest t2

/-- Modelled from the spec (section 4.3): enable a path-rights provider
on the aggregator. -/
def SafetyContext.enablePaths (ctx : SafetyContext) (p : LandlockProviderData) :
    Except ExtraSafeError SafetyContext :=
  match addPathEntries p.name p.entries ctx.landlockTable with
  | .error e => .error e
  | .ok t2 => .ok ⟨ctx.table, t2, true⟩

/-- Modelled from the spec: register two path-rights providers in order
into a fresh aggregator. -/
def enablePathsTwo (p q : LandlockProviderData) : Except ExtraSafeError SafetyContext :=
  match SafetyContext.new.enablePaths p with
  | .error e => .error e
  | .ok c => c.enablePaths q

/-- Modelled from the spec: the kernel-visible enforcement state — which
of the two mechanisms has been installed. -/
structure KernelState where
  seccompInstalled : Bool
  landlockInstalled : Bool
deriving DecidableEq

/-- Modelled from the spec (sections 4.3 and 4.4): apply to all threads
fails fast with LandlockNoThreadSync while a path-rights policy is
pending, before installing either mechanism; otherwise it finalizes and
installs the syscall filter for the whole thread group. -/
def SafetyContext.apply_to_all_threads (ctx : SafetyContext) (k : KernelState) :
    Except ExtraSafeError Unit × KernelState :=
  if ctx.landlockTable.isEmpty then
    match ctx.finalize with
    | .error e => (.error e, k)
    | .ok _ => (.ok (), ⟨true, k.landlockInstalled⟩)
  else (.error .LandlockNoThreadSync, k)

/-- Modelled from the spec: the aggregator states reachable from a fresh
aggregator by successful enable calls. -/
inductive Reachable : SafetyContext → Prop where
  | base : Reachable SafetyContext.new
  | step {ctx : SafetyContext} {p : RuleSetData} {ctx2 : SafetyContext} :
    Reachable ctx → ctx.enable p = .ok ctx2 → Reachable ctx2

/-- The grant table maps each syscall to at most one state: its keys are
pairwise distinct. -/
def KeysNodup (t : GrantTable) : Prop :=
  (t.map Prod.fst).Nodup

/-- A syscall that the lookup does not find is not among the table keys. -/
theorem lookupGrant_none_not_mem {t : GrantTable} {s : Sysno} (h : lookupGrant t s = none) :
    s ∉ t.map Prod.fst := by
  induction t with
  | nil => simp
  | cons hd rest ih =>
    obtain ⟨s1, g1⟩ := hd
    by_cases hs : s = s1
    · simp [lookupGrant, hs] at h
    · simp only [lookupGrant, if_neg hs] at h
      simp only [List.map_cons, List.mem_cons]
      exact fun hc => hc.elim hs (fun hm => ih h hm)

/-- Replacing the state of a key leaves the key list unchanged. -/
theorem updateGrant_keys (t : GrantTable) (s : Sysno) (g : GrantState) :
    (updateGrant t s g).map Prod.fst = t.map Prod.fst := by
  induction t with
  | nil => rfl
  | cons hd rest ih =>
    obtain ⟨s1, g1⟩ := hd
    by_cases hs : s = s1 <;> simp [updateGrant, hs, ih]

/-- Merging one unconditional grant preserves key distinctness. -/
theorem addSimpleGrant_keysNodup {owner : String} {s : Sysno} {t t2 : GrantTable}
    (hn : KeysNodup t) (h : addSimpleGrant owner s t = .ok t2) : KeysNodup t2 := by
  unfold addSimpleGrant at h
  cases hl : lookupGrant t s with
  | none =>
    rw [hl] at h
    cases h
    have hmem := lookupGrant_none_not_mem hl
    simp [KeysNodup, List.nodup_append, hmem]
    exact hn
  | some g =>
    cases g with
    | uncond o =>
      rw [hl] at h
      cases h
      exact hn
    | cond os rs =>
      rw [hl] at h
      cases h

/-- Merging one conditional grant preserves key distinctness. -/
theorem addCondGrant_keysNodup {owner : String} {s : Sysno} {rules : List SeccompRule}
    {t t2 : GrantTable} (hn : KeysNodup t) (h : addCondGrant owner s rules t = .ok t2) :
    KeysNodup t2 := by
  unfold addCondGrant at h
  cases hl : lookupGrant t s with
  | none =>
    rw [hl] at h
    cases h
    have hmem := lookupGrant_none_not_mem hl
    simp [KeysNodup, List.nodup_append, hmem]
    exact hn
  | some g =>
    cases g with
    | uncond o =>
      rw [hl] at h
      cases h
    | cond os rs =>
      rw [hl] at h
      cases h
      simpa [KeysNodup, updateGrant_keys] using hn

/-- Merging a whole unconditional set preserves key distinctness. -/
theorem addSimpleGrants_keysNodup {owner : String} :
    ∀ {l : List Sysno} {t t2 : GrantTable}, KeysNodup t →
      addSimpleGrants owner l t = .ok t2 → KeysNodup t2 := by
  intro l
  induction l with
  | nil =>
    intro t t2 hn h
    cases h
    assumption
  | cons s rest ih =>
    intro t t2 hn h
    unfold addSimpleGrants at h
    cases hh : addSimpleGrant owner s t with
    | error e =>
      rw [hh] at h
      cases h
    | ok t1 =>
      rw [hh] at h
      exact ih (addSimpleGrant_keysNodup hn hh) h

/-- Merging a whole conditional map preserves key distinctness. -/
theorem addCondGrants_keysNodup {owner : String} :
    ∀ {l : List (Sysno × List SeccompRule)} {t t2 : GrantTable}, KeysNodup t →
      addCondGrants owner l t = .ok t2 → KeysNodup t2 := by
  intro l
  induction l with
  | nil =>
    intro t t2 hn h
    cases h
    assumption
  | cons hd rest ih =>
    intro t t2 hn h
    obtain ⟨s, rules⟩ := hd
    unfold addCondGrants at h
    cases hh : addCondGrant owner s rules t with
    | error e =>
      rw [hh] at h
      cases h
    | ok t1 =>
      rw [hh] at h
      exact ih (addCondGrant_keysNodup hn hh) h

/-- A successful enable call preserves key distinctness of the table. -/
theorem enable_keysNodup {ctx : SafetyContext} {p : RuleSetData} {ctx2 : SafetyContext}
    (hn : KeysNodup ctx.table) (h : ctx.enable p = .ok ctx2) : KeysNodup ctx2.table := by
  unfold SafetyContext.enable at h
  split at h
  · cases h
  · rename_i t1 h1
    split at h
    · cases h
    · rename_i t2 h2
      cases h
      exact addCondGrants_keysNodup (addSimpleGrants_keysNodup hn h1) h2

/-- Every reachable aggregator has pairwise distinct table keys. -/
theorem reachable_keysNodup {ctx : SafetyContext} (h : Reachable ctx) : KeysNodup ctx.table := by
  induction h with
  | base => simp [KeysNodup, SafetyContext.new]
  | step _ he ih => exact enable_keysNodup ih he

/-- With distinct keys, a syscall has at most one grant state in the table. -/
theorem keysNodup_value_unique {t : GrantTable} (hn : KeysNodup t) {s : Sysno}
    {g1 g2 : GrantState} (h1 : (s, g1) ∈ t) (h2 : (s, g2) ∈ t) : g1 = g2 := by
  induction t with
  | nil => cases h1
  | cons hd rest ih =>
    obtain ⟨s0, g0⟩ := hd
    have hn2 := List.nodup_cons.mp hn
    rcases List.mem_cons.mp h1 with he1 | hm1
    · rcases List.mem_cons.mp h2 with he2 | hm2
      · injection he1 with ha1 hb1
        injection he2 with ha2 hb2
        rw [hb1, hb2]
      · injection he1 with ha1 hb1
        have hmm : s ∈ rest.map Prod.fst := List.mem_map_of_mem Prod.fst hm2
        rw [ha1] at hmm
        exact absurd hmm hn2.1
    · rcases List.mem_cons.mp h2 with he2 | hm2
      · injection he2 with ha2 hb2
        have hmm : s ∈ rest.map Prod.fst := List.mem_map_of_mem Prod.fst hm1
        rw [ha2] at hmm
        exact absurd hmm hn2.1
      · exact ih hn2.2 hm1 hm2

/-- C4: in every aggregator state reachable from the fresh aggregator by
successful enable calls, no syscall is simultaneously recorded as
Unconditional and Conditional. -/
theorem no_uncond_and_cond_reachable (ctx : SafetyContext) (h : Reachable ctx) (s : Sysno)
    (o : String) (os : List String) (rs : List SeccompRule) :
    ¬((s, GrantState.uncond o) ∈ ctx.table ∧ (s, GrantState.cond os rs) ∈ ctx.table) := by
  rintro ⟨h1, h2⟩
  have hv := keysNodup_value_unique (reachable_keysNodup h) h1 h2
  exact GrantState.noConfusion hv

/-- Witness for C4 at the aggregator reached by enabling one provider
that grants syscall 0 unconditionally. -/
theorem no_uncond_and_cond_reachable_witness :
    ¬((0, GrantState.uncond "A") ∈ (SafetyContext.mk [(0, GrantState.uncond "A")] [] true).table
      ∧ (0, GrantState.cond ["B"] []) ∈ (SafetyContext.mk [(0, GrantState.uncond "A")] [] true).table) :=
  no_uncond_and_cond_reachable ⟨[(0, GrantState.uncond "A")], [], true⟩
    (Reachable.step (p := ⟨"A", [0], []⟩) Reachable.base rfl) 0 "A" ["B"] []

/-- C1: for a provider granting syscall s unconditionally and a provider
granting s conditionally, registering both into a fresh aggregator fails
in either order with one and the same conflict error, carrying the
syscall and both provider names. -/
theorem enable_uncond_cond_conflict_both_orders (s : Sysno) (pn qn : String)
    (rs : List SeccompRule) :
    enableTwo ⟨pn, [s], []⟩ ⟨qn, [], [(s, rs)]⟩
      = .error (.ConditionalNoEffectError s qn pn)
    ∧ enableTwo ⟨qn, [], [(s, rs)]⟩ ⟨pn, [s], []⟩
      = .error (.ConditionalNoEffectError s qn pn) := by
  constructor <;>
    simp [enableTwo, SafetyContext.new, SafetyContext.enable, addSimpleGrants, addCondGrants,
      addSimpleGrant, addCondGrant, lookupGrant]

/-- C2: two providers granting conditional rules for the same syscall
merge successfully; the merged rule list is the concatenation of both,
and the merged policy permits a call exactly when either rule list
admits it (OR semantics). -/
theorem enable_cond_cond_union (s : Sysno) (pn qn : String) (ps qs : List SeccompRule) :
    enableTwo ⟨pn, [], [(s, ps)]⟩ ⟨qn, [], [(s, qs)]⟩
      = .ok ⟨[(s, .cond [pn, qn] (ps ++ qs))], [], true⟩
    ∧ ∀ args : List Nat,
      (SafetyContext.mk [(s, GrantState.cond [pn, qn] (ps ++ qs))] [] true).permits s args
        = (rulesPermit ps args || rulesPermit qs args) := by
  constructor
  · simp [enableTwo, SafetyContext.new, SafetyContext.enable, addSimpleGrants, addCondGrants,
      addCondGrant, lookupGrant, updateGrant]
  · intro args
    simp [SafetyContext.permits, lookupGrant, rulesPermit, List.any_append]

/-- C3: two providers granting the same syscall unconditionally merge
successfully and the second registration leaves the table exactly as the
first left it (idempotent union). -/
theorem enable_uncond_uncond_idempotent (s : Sysno) (pn qn : String) :
    SafetyContext.new.enable ⟨pn, [s], []⟩ = .ok ⟨[(s, .uncond pn)], [], true⟩
    ∧ enableTwo ⟨pn, [s], []⟩ ⟨qn, [s], []⟩ = .ok ⟨[(s, .uncond pn)], [], true⟩ := by
  constructor <;>
    simp [enableTwo, SafetyContext.new, SafetyContext.enable, addSimpleGrants, addCondGrants,
      addSimpleGrant, lookupGrant]

/-- C5: finalizing an aggregator on which no enable call was ever made
fails with the NoRulesEnabled error. -/
theorem finalize_empty_no_rules :
    SafetyContext.new.finalize = .error ExtraSafeError.NoRulesEnabled :=
  rfl

/-- C6: two distinct path-rights providers registering the identical
path conflict with a duplicate-path error carrying the path and both
names, while the same provider re-registering the identical path and
rights succeeds with the rights unioned (hence unchanged). -/
theorem duplicate_path_conflict (p pn qn : String) (r1 r2 : Finset Nat) (h : pn ≠ qn) :
    enablePathsTwo ⟨pn, [(p, r1)]⟩ ⟨qn, [(p, r2)]⟩ = .error (.DuplicatePath p pn qn)
    ∧ enablePathsTwo ⟨pn, [(p, r1)]⟩ ⟨pn, [(p, r1)]⟩ = .ok ⟨[], [⟨p, r1, pn⟩], true⟩ := by
  constructor
  · simp [enablePathsTwo, SafetyContext.new, SafetyContext.enablePaths, addPathEntries,
      addPathEntry, lookupPath, h]
  · simp [enablePathsTwo, SafetyContext.new, SafetyContext.enablePaths, addPathEntries,
      addPathEntry, lookupPath, updatePathRights, Finset.union_self]

/-- Witness for C6 at concrete providers A and B on path /tmp. -/
theorem duplicate_path_conflict_witness :
    enablePathsTwo ⟨"A", [("/tmp", {1})]⟩ ⟨"B", [("/tmp", {2})]⟩
      = .error (.DuplicatePath "/tmp" "A" "B")
    ∧ enablePathsTwo ⟨"A", [("/tmp", {1})]⟩ ⟨"A", [("/tmp", {1})]⟩
      = .ok ⟨[], [⟨"/tmp", {1}, "A"⟩], true⟩ :=
  duplicate_path_conflict "/tmp" "A" "B" {1} {2} (by decide)

/-- C7: on any aggregator holding a pending path-rights policy, applying
to all threads fails with LandlockNoThreadSync and leaves the kernel
state untouched — neither mechanism is installed. -/
theorem apply_all_threads_landlock_pending (ctx : SafetyContext) (k : KernelState)
    (h : ctx.landlockTable ≠ []) :
    ctx.apply_to_all_threads k = (.error ExtraSafeError.LandlockNoThreadSync, k) := by
  have hfalse : ctx.landlockTable.isEmpty = false := by
    cases hl : ctx.landlockTable
    · exact absurd hl h
    · rfl
  simp [SafetyContext.apply_to_all_threads, hfalse]

/-- Witness for C7 at a concrete aggregator with one pending path rule. -/
theorem apply_all_threads_landlock_pending_witness :
    (SafetyContext.mk [] [⟨"/tmp", {1}, "A"⟩] true).apply_to_all_threads ⟨false, false⟩
      = (.error ExtraSafeError.LandlockNoThreadSync, ⟨false, false⟩) :=
  apply_all_threads_landlock_pending ⟨[], [⟨"/tmp", {1}, "A"⟩], true⟩ ⟨false, false⟩
    (List.cons_ne_nil _ _)

/-- C8: the acknowledgment wrapper is a stateless round trip — yes_really
after new returns exactly the wrapped value, and every wrapper is the
wrap of its own extraction, so it carries no state beyond the value. -/
theorem yes_really_round_trip :
    (∀ (T : Type u) (x : T), (YesReally.new x).yes_really = x)
    ∧ ∀ (T : Type u) (y : YesReally T), YesReally.new y.yes_really = y :=
  ⟨fun _ _ => rfl, fun _ _ => rfl⟩

/-- A Time builder method that unions a fixed syscall set onto its
receiver is idempotent. -/
theorem time_adds_idem (g : Time → Time) (c : Finset Sysno)
    (hadd : ∀ t, (g t).syscalls = t.syscalls ∪ c) (t : Time) : g (g t) = g t := by
  apply Time.ext
  rw [hadd (g t), hadd t, Finset.union_assoc, Finset.union_self]

/-- A Time builder method that unions a fixed syscall set onto its
receiver only ever adds syscalls. -/
theorem time_adds_mono (g : Time → Time) (c : Finset Sysno)
    (hadd : ∀ t, (g t).syscalls = t.syscalls ∪ c) (t : Time) :
    t.syscalls ⊆ (g t).syscalls := by
  rw [hadd]
  exact Finset.subset_union_left

/-- Idempotence lifted through the acknowledgment wrapper for Time. -/
theorem time_yes_adds_idem (f : Time → YesReally Time) (c : Finset Sysno)
    (hadd : ∀ t, ((f t).yes_really).syscalls = t.syscalls ∪ c) (t : Time) :
    f ((f t).yes_really) = f t := by
  apply YesReally.ext
  exact time_adds_idem (fun a => (f a).yes_really) c hadd t

/-- A UserId builder method that unions a fixed syscall set onto its
receiver is idempotent. -/
theorem userid_adds_idem (g : UserId → UserId) (c : Finset Sysno)
    (hadd : ∀ u, (g u).syscalls = u.syscalls ∪ c) (u : UserId) : g (g u) = g u := by
  apply UserId.ext
  rw [hadd (g u), hadd u, Finset.union_assoc, Finset.union_self]

/-- A UserId builder method that unions a fixed syscall set onto its
receiver only ever adds syscalls. -/
theorem userid_adds_mono (g : UserId → UserId) (c : Finset Sysno)
    (hadd : ∀ u, (g u).syscalls = u.syscalls ∪ c) (u : UserId) :
    u.syscalls ⊆ (g u).syscalls := by
  rw [hadd]
  exact Finset.subset_union_left

/-- Idempotence lifted through the acknowledgment wrapper for UserId. -/
theorem userid_yes_adds_idem (f : UserId → YesReally UserId) (c : Finset Sysno)
    (hadd : ∀ u, ((f u).yes_really).syscalls = u.syscalls ∪ c) (u : UserId) :
    f ((f u).yes_really) = f u := by
  apply YesReally.ext
  exact userid_adds_idem (fun a => (f a).yes_really) c hadd u

/-- allow_adjtimex adds exactly the adjtimex syscall. -/
theorem allow_adjtimex_adds (t : Time) :
    ((t.allow_adjtimex).yes_really).syscalls = t.syscalls ∪ {Sysno.adjtimex} := by
  ext x
  simp [Time.allow_adjtimex, YesReally.new, YesReally.yes_really]
  tauto

/-- allow_clock_adjtime adds exactly the clock_adjtime syscall. -/
theorem allow_clock_adjtime_adds (t : Time) :
    ((t.allow_clock_adjtime).yes_really).syscalls = t.syscalls ∪ {Sysno.clock_adjtime} := by
  ext x
  simp [Time.allow_clock_adjtime, YesReally.new, YesReally.yes_really]
  tauto

/-- allow_clock_settime adds exactly the clock_settime syscall. -/
theorem allow_clock_settime_adds (t : Time) :
    ((t.allow_clock_settime).yes_really).syscalls = t.syscalls ∪ {Sysno.clock_settime} := by
  ext x
  simp [Time.allow_clock_settime, YesReally.new, YesReally.yes_really]
  tauto

/-- allow_settimeofday adds exactly the settimeofday syscall. -/
theorem allow_settimeofday_adds (t : Time) :
    ((t.allow_settimeofday).yes_really).syscalls = t.syscalls ∪ {Sysno.settimeofday} := by
  ext x
  simp [Time.allow_settimeofday, YesReally.new, YesReally.yes_really]
  tauto

/-- allow_modify adds exactly the four time-modifying syscalls. -/
theorem allow_modify_adds (t : Time) :
    ((t.allow_modify).yes_really).syscalls = t.syscalls
      ∪ {Sysno.adjtimex, Sysno.clock_adjtime, Sysno.clock_settime, Sysno.settimeofday} := by
  ext x
  simp [Time.allow_modify, Time.allow_adjtimex, Time.allow_clock_adjtime,
    Time.allow_clock_settime, Time.allow_settimeofday, YesReally.new, YesReally.yes_really]
  tauto

/-- allow_clock_getres adds exactly the clock_getres syscall. -/
theorem allow_clock_getres_adds (t : Time) :
    (t.allow_clock_getres).syscalls = t.syscalls ∪ {Sysno.clock_getres} := by
  ext x
  simp [Time.allow_clock_getres]
  tauto

/-- allow_clock_gettime adds exactly the clock_gettime syscall. -/
theorem allow_clock_gettime_adds (t : Time) :
    (t.allow_clock_gettime).syscalls = t.syscalls ∪ {Sysno.clock_gettime} := by
  ext x
  simp [Time.allow_clock_gettime]
  tauto

/-- allow_gettime adds exactly the two clock-query syscalls. -/
theorem allow_gettime_adds (t : Time) :
    (t.allow_gettime).syscalls = t.syscalls ∪ {Sysno.clock_getres, Sysno.clock_gettime} := by
  ext x
  simp [Time.allow_gettime, Time.allow_clock_getres, Time.allow_clock_gettime]
  tauto

/-- allow_gettimeofday adds exactly the gettimeofday syscall. -/
theorem allow_gettimeofday_adds (t : Time) :
    (t.allow_gettimeofday).syscalls = t.syscalls ∪ {Sysno.gettimeofday} := by
  ext x
  simp [Time.allow_gettimeofday]
  tauto

/-- allow_time adds exactly the time syscall. -/
theorem allow_time_adds (t : Time) :
    (t.allow_time).syscalls = t.syscalls ∪ {Sysno.time} := by
  ext x
  simp [Time.allow_time]
  tauto

/-- allow_query adds exactly the four time-query syscalls. -/
theorem allow_query_adds (t : Time) :
    (t.allow_query).syscalls = t.syscalls
      ∪ {Sysno.clock_getres, Sysno.clock_gettime, Sysno.gettimeofday, Sysno.time} := by
  ext x
  simp [Time.allow_query, Time.allow_gettime, Time.allow_clock_getres,
    Time.allow_clock_gettime, Time.allow_gettimeofday, Time.allow_time]
  tauto

/-- allow_clock_nanosleep adds exactly the clock_nanosleep syscall. -/
theorem allow_clock_nanosleep_adds (t : Time) :
    (t.allow_clock_nanosleep).syscalls = t.syscalls ∪ {Sysno.clock_nanosleep} := by
  ext x
  simp [Time.allow_clock_nanosleep]
  tauto

/-- allow_nanosleep adds exactly the nanosleep syscall. -/
theorem allow_nanosleep_adds (t : Time) :
    (t.allow_nanosleep).syscalls = t.syscalls ∪ {Sysno.nanosleep} := by
  ext x
  simp [Time.allow_nanosleep]
  tauto

/-- allow_sleep adds exactly the two sleeping syscalls. -/
theorem allow_sleep_adds (t : Time) :
    (t.allow_sleep).syscalls = t.syscalls ∪ {Sysno.clock_nanosleep, Sysno.nanosleep} := by
  ext x
  simp [Time.allow_sleep, Time.allow_clock_nanosleep, Time.allow_nanosleep]
  tauto

/-- allow_query_and_sleep adds exactly the six query and sleep syscalls. -/
theorem allow_query_and_sleep_adds (t : Time) :
    (t.allow_query_and_sleep).syscalls = t.syscalls
      ∪ {Sysno.clock_getres, Sysno.clock_gettime, Sysno.gettimeofday, Sysno.time,
          Sysno.clock_nanosleep, Sysno.nanosleep} := by
  ext x
  simp [Time.allow_query_and_sleep, Time.allow_query, Time.allow_gettime,
    Time.allow_clock_getres, Time.allow_clock_gettime, Time.allow_gettimeofday,
    Time.allow_time, Time.allow_sleep, Time.allow_clock_nanosleep, Time.allow_nanosleep]
  tauto

/-- allow_everything adds exactly the ten Time syscalls. -/
theorem time_allow_everything_adds (t : Time) :
    ((t.allow_everything).yes_really).syscalls = t.syscalls
      ∪ {Sysno.adjtimex, Sysno.clock_adjtime, Sysno.clock_settime, Sysno.settimeofday,
          Sysno.clock_getres, Sysno.clock_gettime, Sysno.gettimeofday, Sysno.time,
          Sysno.clock_nanosleep, Sysno.nanosleep} := by
  ext x
  simp [Time.allow_everything, Time.allow_modify, Time.allow_adjtimex,
    Time.allow_clock_adjtime, Time.allow_clock_settime, Time.allow_settimeofday,
    Time.allow_query_and_sleep, Time.allow_query, Time.allow_gettime,
    Time.allow_clock_getres, Time.allow_clock_gettime, Time.allow_gettimeofday,
    Time.allow_time, Time.allow_sleep, Time.allow_clock_nanosleep, Time.allow_nanosleep,
    YesReally.new, YesReally.yes_really]
  tauto

/-- allow_setfsuid adds exactly the setfsuid syscall. -/
theorem allow_setfsuid_adds (u : UserId) :
    ((u.allow_setfsuid).yes_really).syscalls = u.syscalls ∪ {Sysno.setfsuid} := by
  ext x
  simp [UserId.allow_setfsuid, YesReally.new, YesReally.yes_really]
  tauto

/-- allow_setresuid adds exactly the setresuid syscall. -/
theorem allow_setresuid_adds (u : UserId) :
    ((u.allow_setresuid).yes_really).syscalls = u.syscalls ∪ {Sysno.setresuid} := by
  ext x
  simp [UserId.allow_setresuid, YesReally.new, YesReally.yes_really]
  tauto

/-- allow_setreuid adds exactly the setreuid syscall. -/
theorem allow_setreuid_adds (u : UserId) :
    ((u.allow_setreuid).yes_really).syscalls = u.syscalls ∪ {Sysno.setreuid} := by
  ext x
  simp [UserId.allow_setreuid, YesReally.new, YesReally.yes_really]
  tauto

/-- allow_setuid adds exactly the setuid syscall. -/
theorem allow_setuid_adds (u : UserId) :
    ((u.allow_setuid).yes_really).syscalls = u.syscalls ∪ {Sysno.setuid} := by
  ext x
  simp [UserId.allow_setuid, YesReally.new, YesReally.yes_really]
  tauto

/-- allow_set adds exactly the four user-ID-modifying syscalls. -/
theorem allow_set_adds (u : UserId) :
    ((u.allow_set).yes_really).syscalls = u.syscalls
      ∪ {Sysno.setfsuid, Sysno.setresuid, Sysno.setreuid, Sysno.setuid} := by
  ext x
  simp [UserId.allow_set, UserId.allow_setfsuid, UserId.allow_setresuid,
    UserId.allow_setreuid, UserId.allow_setuid, YesReally.new, YesReally.yes_really]
  tauto

/-- allow_geteuid adds exactly the geteuid syscall. -/
theorem allow_geteuid_adds (u : UserId) :
    (u.allow_geteuid).syscalls = u.syscalls ∪ {Sysno.geteuid} := by
  ext x
  simp [UserId.allow_geteuid]
  tauto

/-- allow_getresuid adds exactly the getresuid syscall. -/
theorem allow_getresuid_adds (u : UserId) :
    (u.allow_getresuid).syscalls = u.syscalls ∪ {Sysno.getresuid} := by
  ext x
  simp [UserId.allow_getresuid]
  tauto

/-- allow_getuid adds exactly the getuid syscall. -/
theorem allow_getuid_adds (u : UserId) :
    (u.allow_getuid).syscalls = u.syscalls ∪ {Sysno.getuid} := by
  ext x
  simp [UserId.allow_getuid]
  tauto

/-- allow_get adds exactly the three user-ID-query syscalls. -/
theorem allow_get_adds (u : UserId) :
    (u.allow_get).syscalls = u.syscalls
      ∪ {Sysno.geteuid, Sysno.getresuid, Sysno.getuid} := by
  ext x
  simp [UserId.allow_get, UserId.allow_geteuid, UserId.allow_getresuid, UserId.allow_getuid]
  tauto

/-- allow_everything adds exactly the seven UserId syscalls. -/
theorem userid_allow_everything_adds (u : UserId) :
    ((u.allow_everything).yes_really).syscalls = u.syscalls
      ∪ {Sysno.setfsuid, Sysno.setresuid, Sysno.setreuid, Sysno.setuid,
          Sysno.geteuid, Sysno.getresuid, Sysno.getuid} := by
  ext x
  simp [UserId.allow_everything, UserId.allow_set, UserId.allow_setfsuid,
    UserId.allow_setresuid, UserId.allow_setreuid, UserId.allow_setuid,
    UserId.allow_get, UserId.allow_geteuid, UserId.allow_getresuid, UserId.allow_getuid,
    YesReally.new, YesReally.yes_really]
  tauto

/-- The syscall set of query_and_modify is the union of the query set
and the modify set. -/
theorem query_and_modify_union_sets :
    (Time.query_and_modify.yes_really).syscalls
      = Time.query.syscalls ∪ (Time.modify.yes_really).syscalls := by
  ext x
  simp [Time.query_and_modify, Time.query, Time.modify, Time.default,
    allow_modify_adds, allow_query_adds]

/-- The syscall set of everything is the union of the query, modify and
sleep sets. -/
theorem everything_union_sets :
    (Time.everything.yes_really).syscalls
      = Time.query.syscalls ∪ (Time.modify.yes_really).syscalls ∪ Time.sleep.syscalls := by
  ext x
  simp [Time.everything, Time.query, Time.modify, Time.sleep, Time.default,
    time_allow_everything_adds, allow_modify_adds, allow_query_adds, allow_sleep_adds]
  tauto

/-- C9: the nothing constructors of Time and UserId answer both
interface queries with empty results, and every constructor chain starts
from this base case. -/
theorem nothing_empty_base_case :
    Time.nothing.simple_rules = []
    ∧ Time.nothing.conditional_rules = []
    ∧ UserId.nothing.simple_rules = []
    ∧ UserId.nothing.conditional_rules = []
    ∧ Time.query = Time.nothing.allow_query
    ∧ Time.sleep = Time.nothing.allow_sleep
    ∧ Time.everything = Time.nothing.allow_everything
    ∧ Time.modify = Time.nothing.allow_modify
    ∧ Time.query_and_sleep = Time.nothing.allow_query_and_sleep
    ∧ Time.query_and_modify = (Time.nothing.allow_query).allow_modify
    ∧ UserId.get = UserId.nothing.allow_get
    ∧ UserId.set = UserId.nothing.allow_set
    ∧ UserId.everything = UserId.nothing.allow_everything := by
  refine ⟨?_, rfl, ?_, rfl, rfl, rfl, rfl, rfl, rfl, rfl, rfl, rfl, rfl⟩
  · simp [Time.nothing, Time.default, Time.simple_rules]
  · simp [UserId.nothing, UserId.default, UserId.simple_rules]

/-- C10: every allow builder method of Time and UserId is idempotent and
monotone, the grouped constructors are set unions of their parts, and
the simple-rules list never contains a duplicated syscall. -/
theorem builtin_allow_algebra :
    (∀ t : Time,
      ((t.allow_adjtimex.yes_really).allow_adjtimex = t.allow_adjtimex
        ∧ t.syscalls ⊆ (t.allow_adjtimex.yes_really).syscalls)
      ∧ ((t.allow_clock_adjtime.yes_really).allow_clock_adjtime = t.allow_clock_adjtime
        ∧ t.syscalls ⊆ (t.allow_clock_adjtime.yes_really).syscalls)
      ∧ ((t.allow_clock_settime.yes_really).allow_clock_settime = t.allow_clock_settime
        ∧ t.syscalls ⊆ (t.allow_clock_settime.yes_really).syscalls)
      ∧ ((t.allow_settimeofday.yes_really).allow_settimeofday = t.allow_settimeofday
        ∧ t.syscalls ⊆ (t.allow_settimeofday.yes_really).syscalls)
      ∧ ((t.allow_modify.yes_really).allow_modify = t.allow_modify
        ∧ t.syscalls ⊆ (t.allow_modify.yes_really).syscalls)
      ∧ ((t.allow_everything.yes_really).allow_everything = t.allow_everything
        ∧ t.syscalls ⊆ (t.allow_everything.yes_really).syscalls)
      ∧ ((t.allow_clock_getres).allow_clock_getres = t.allow_clock_getres
        ∧ t.syscalls ⊆ (t.allow_clock_getres).syscalls)
      ∧ ((t.allow_clock_gettime).allow_clock_gettime = t.allow_clock_gettime
        ∧ t.syscalls ⊆ (t.allow_clock_gettime).syscalls)
      ∧ ((t.allow_gettime).allow_gettime = t.allow_gettime
        ∧ t.syscalls ⊆ (t.allow_gettime).syscalls)
      ∧ ((t.allow_gettimeofday).allow_gettimeofday = t.allow_gettimeofday
        ∧ t.syscalls ⊆ (t.allow_gettimeofday).syscalls)
      ∧ ((t.allow_time).allow_time = t.allow_time
        ∧ t.syscalls ⊆ (t.allow_time).syscalls)
      ∧ ((t.allow_query).allow_query = t.allow_query
        ∧ t.syscalls ⊆ (t.allow_query).syscalls)
      ∧ ((t.allow_clock_nanosleep).allow_clock_nanosleep = t.allow_clock_nanosleep
        ∧ t.syscalls ⊆ (t.allow_clock_nanosleep).syscalls)
      ∧ ((t.allow_nanosleep).allow_nanosleep = t.allow_nanosleep
        ∧ t.syscalls ⊆ (t.allow_nanosleep).syscalls)
      ∧ ((t.allow_sleep).allow_sleep = t.allow_sleep
        ∧ t.syscalls ⊆ (t.allow_sleep).syscalls)
      ∧ ((t.allow_query_and_sleep).allow_query_and_sleep = t.allow_query_and_sleep
        ∧ t.syscalls ⊆ (t.allow_query_and_sleep).syscalls))
    ∧ (∀ u : UserId,
      ((u.allow_setfsuid.yes_really).allow_setfsuid = u.allow_setfsuid
        ∧ u.syscalls ⊆ (u.allow_setfsuid.yes_really).syscalls)
      ∧ ((u.allow_setresuid.yes_really).allow_setresuid = u.allow_setresuid
        ∧ u.syscalls ⊆ (u.allow_setresuid.yes_really).syscalls)
      ∧ ((u.allow_setreuid.yes_really).allow_setreuid = u.allow_setreuid
        ∧ u.syscalls ⊆ (u.allow_setreuid.yes_really).syscalls)
      ∧ ((u.allow_setuid.yes_really).allow_setuid = u.allow_setuid
        ∧ u.syscalls ⊆ (u.allow_setuid.yes_really).syscalls)
      ∧ ((u.allow_set.yes_really).allow_set = u.allow_set
        ∧ u.syscalls ⊆ (u.allow_set.yes_really).syscalls)
      ∧ ((u.allow_everything.yes_really).allow_everything = u.allow_everything
        ∧ u.syscalls ⊆ (u.allow_everything.yes_really).syscalls)
      ∧ ((u.allow_geteuid).allow_geteuid = u.allow_geteuid
        ∧ u.syscalls ⊆ (u.allow_geteuid).syscalls)
      ∧ ((u.allow_getresuid).allow_getresuid = u.allow_getresuid
        ∧ u.syscalls ⊆ (u.allow_getresuid).syscalls)
      ∧ ((u.allow_getuid).allow_getuid = u.allow_getuid
        ∧ u.syscalls ⊆ (u.allow_getuid).syscalls)
      ∧ ((u.allow_get).allow_get = u.allow_get
        ∧ u.syscalls ⊆ (u.allow_get).syscalls))
    ∧ (Time.query_and_modify.yes_really).syscalls
        = Time.query.syscalls ∪ (Time.modify.yes_really).syscalls
    ∧ (Time.everything.yes_really).syscalls
        = Time.query.syscalls ∪ (Time.modify.yes_really).syscalls ∪ Time.sleep.syscalls
    ∧ (∀ t : Time, t.simple_rules.Nodup)
    ∧ (∀ u : UserId, u.simple_rules.Nodup) := by
  refine ⟨fun t => ?_, fun u => ?_, query_and_modify_union_sets, everything_union_sets,
    fun t => Finset.sort_nodup _ _, fun u => Finset.sort_nodup _ _⟩
  · exact
      ⟨⟨time_yes_adds_idem Time.allow_adjtimex _ allow_adjtimex_adds t,
          time_adds_mono _ _ allow_adjtimex_adds t⟩,
        ⟨time_yes_adds_idem Time.allow_clock_adjtime _ allow_clock_adjtime_adds t,
          time_adds_mono _ _ allow_clock_adjtime_adds t⟩,
        ⟨time_yes_adds_idem Time.allow_clock_settime _ allow_clock_settime_adds t,
          time_adds_mono _ _ allow_clock_settime_adds t⟩,
        ⟨time_yes_adds_idem Time.allow_settimeofday _ allow_settimeofday_adds t,
          time_adds_mono _ _ allow_settimeofday_adds t⟩,
        ⟨time_yes_adds_idem Time.allow_modify _ allow_modify_adds t,
          time_adds_mono _ _ allow_modify_adds t⟩,
        ⟨time_yes_adds_idem Time.allow_everything _ time_allow_everything_adds t,
          time_adds_mono _ _ time_allow_everything_adds t⟩,
        ⟨time_adds_idem Time.allow_clock_getres _ allow_clock_getres_adds t,
          time_adds_mono _ _ allow_clock_getres_adds t⟩,
        ⟨time_adds_idem Time.allow_clock_gettime _ allow_clock_gettime_adds t,
          time_adds_mono _ _ allow_clock_gettime_adds t⟩,
        ⟨time_adds_idem Time.allow_gettime _ allow_gettime_adds t,
          time_adds_mono _ _ allow_gettime_adds t⟩,
        ⟨time_adds_idem Time.allow_gettimeofday _ allow_gettimeofday_adds t,
          time_adds_mono _ _ allow_gettimeofday_adds t⟩,
        ⟨time_adds_idem Time.allow_time _ allow_time_adds t,
          time_adds_mono _ _ allow_time_adds t⟩,
        ⟨time_adds_idem Time.allow_query _ allow_query_adds t,
          time_adds_mono _ _ allow_query_adds t⟩,
        ⟨time_adds_idem Time.allow_clock_nanosleep _ allow_clock_nanosleep_adds t,
          time_adds_mono _ _ allow_clock_nanosleep_adds t⟩,
        ⟨time_adds_idem Time.allow_nanosleep _ allow_nanosleep_adds t,
          time_adds_mono _ _ allow_nanosleep_adds t⟩,
        ⟨time_adds_idem Time.allow_sleep _ allow_sleep_adds t,
          time_adds_mono _ _ allow_sleep_adds t⟩,
        ⟨time_adds_idem Time.allow_query_and_sleep _ allow_query_and_sleep_adds t,
          time_adds_mono _ _ allow_query_and_sleep_adds t⟩⟩
  · exact
      ⟨⟨userid_yes_adds_idem UserId.allow_setfsuid _ allow_setfsuid_adds u,
          userid_adds_mono _ _ allow_setfsuid_adds u⟩,
        ⟨userid_yes_adds_idem UserId.allow_setresuid _ allow_setresuid_adds u,
          userid_adds_mono _ _ allow_setresuid_adds u⟩,
        ⟨userid_yes_adds_idem UserId.allow_setreuid _ allow_setreuid_adds u,
          userid_adds_mono _ _ allow_setreuid_adds u⟩,
        ⟨userid_yes_adds_idem UserId.allow_setuid _ allow_setuid_adds u,
          userid_adds_mono _ _ allow_setuid_adds u⟩,
        ⟨userid_yes_adds_idem UserId.allow_set _ allow_set_adds u,
          userid_adds_mono _ _ allow_set_adds u⟩,
        ⟨userid_yes_adds_idem UserId.allow_everything _ userid_allow_everything_adds u,
          userid_adds_mono _ _ userid_allow_everything_adds u⟩,
        ⟨userid_adds_idem UserId.allow_geteuid _ allow_geteuid_adds u,
          userid_adds_mono _ _ allow_geteuid_adds u⟩,
        ⟨userid_adds_idem UserId.allow_getresuid _ allow_getresuid_adds u,
          userid_adds_mono _ _ allow_getresuid_adds u⟩,
        ⟨userid_adds_idem UserId.allow_getuid _ allow_getuid_adds u,
          userid_adds_mono _ _ allow_getuid_adds u⟩,
        ⟨userid_adds_idem UserId.allow_get _ allow_get_adds u,
          userid_adds_mono _ _ allow_get_adds u⟩⟩

end Extrasafe
